import Mathlib

/-!
Shallow embedding of a salary-prediction application.

The repository has two source files:
* app.py — an interactive predictor: input validation, a call to a
  fitted regression pipeline, currency conversion, derived metrics,
  two charts, and a one-row CSV export;
* train_model.py — an offline trainer: synthesizes a 300-row dataset,
  fits a StandardScaler + OneHotEncoder + LinearRegression pipeline,
  and serializes it.

Machine reals (Python floats) are embedded as rationals; Python ints as
Int or Nat; the randomness of the trainer is made explicit by passing
draw streams as function arguments.
-/

namespace SalaryApp

/-! ### Validation (app.py, validate_age and validate_experience) -/

/-- app.py, validate_age: returns the pair of the chained comparison
18 <= age <= 60 and a fixed message string. -/
def validate_age (age : Int) : Bool × String :=
  (decide (18 ≤ age) && decide (age ≤ 60), "Age must be between 18 and 100")

/-- app.py, validate_experience: negative experience and experience above
age - 16 are rejected with dedicated messages. -/
def validate_experience (experience age : Int) : Bool × String :=
  if experience < 0 then (false, "Experience cannot be negative")
  else if experience > age - 16 then (false, "Experience cannot exceed (Age - 16) years")
  else (true, "")

/-- app.py: the inline error messages rendered next to the form, one per
failing check (st.error calls in the col2 block). -/
def inlineErrors (age experience : Int) : List String :=
  (if (validate_age age).1 then [] else [(validate_age age).2])
    ++ (if (validate_experience experience age).1 then [] else [(validate_experience experience age).2])

/-! ### Fitted pipeline (train_model.py, shared artifact loaded by app.py) -/

/-- The handle_unknown configuration of OneHotEncoder. The trainer uses
ignore; error is the library default this replaces. -/
inductive HandleUnknown where
  | error
  | ignore
deriving DecidableEq, Repr

/-- train_model.py: categorical_transformer = OneHotEncoder configured
with handle_unknown set to ignore. -/
def trainerEncoderMode : HandleUnknown := HandleUnknown.ignore

/-- One-row prediction input: the five feature columns of input_df in
app.py (Age, Gender, Education Level, Job Title, Years of Experience). -/
structure InputRow where
  age : Int
  gender : String
  educationLevel : String
  jobTitle : String
  yearsExperience : Int
deriving DecidableEq, Repr

/-- The frozen artifact produced by pipeline.fit in train_model.py:
per-feature scaler statistics, the encoder vocabularies, the encoder
mode, and the linear-regression coefficients and intercept. -/
structure FittedPipeline where
  ageMean : ℚ
  ageScale : ℚ
  expMean : ℚ
  expScale : ℚ
  huMode : HandleUnknown
  genderVocab : List String
  eduVocab : List String
  jobVocab : List String
  coef : List ℚ
  intercept : ℚ
deriving DecidableEq, Repr

/-- OneHotEncoder.transform on one value: indicator vector over the
vocabulary; an unknown value yields none in error mode (the encoder
raises) and the all-zero vector in ignore mode. -/
def oneHot (mode : HandleUnknown) (vocab : List String) (v : String) : Option (List ℚ) :=
  if v ∈ vocab ∨ mode = HandleUnknown.ignore then
    some (vocab.map fun c => if c == v then 1 else 0)
  else none

/-- StandardScaler.transform on one value: subtract the training mean,
divide by the training scale. -/
def standardize (mean scale x : ℚ) : ℚ := (x - mean) / scale

/-- ColumnTransformer.transform: the scaled numeric columns
(Age, Years of Experience) followed by the three one-hot blocks
(Gender, Education Level, Job Title), in the declared column order. -/
def transformRow (p : FittedPipeline) (r : InputRow) : Option (List ℚ) := do
  let g ← oneHot p.huMode p.genderVocab r.gender
  let e ← oneHot p.huMode p.eduVocab r.educationLevel
  let j ← oneHot p.huMode p.jobVocab r.jobTitle
  pure ([standardize p.ageMean p.ageScale (r.age : ℚ),
         standardize p.expMean p.expScale (r.yearsExperience : ℚ)] ++ g ++ e ++ j)

/-- Dot product of the regression coefficients with a feature vector. -/
def dotProduct (a b : List ℚ) : ℚ := (List.zipWith (fun x y => x * y) a b).sum

/-- pipeline.predict on a one-row input: frozen transform followed by the
linear regressor. -/
def predictPipeline (p : FittedPipeline) (r : InputRow) : Option ℚ :=
  (transformRow p r).map fun feats => dotProduct p.coef feats + p.intercept

/-- app.py, load_model: joblib.load of the serialized artifact, cached and
reused unchanged for every prediction in the process. -/
def load_model (artifact : FittedPipeline) : FittedPipeline := artifact

/-! ### Prediction, presentation and export (app.py, main) -/

/-- The three currency options of the selectbox. -/
inductive Currency where
  | INR
  | USD
  | EUR
deriving DecidableEq, Repr

/-- The selectbox label of each currency option. -/
def currencyLabel : Currency → String
  | Currency.INR => "₹ (INR)"
  | Currency.USD => "$ (USD)"
  | Currency.EUR => "€ (EUR)"

/-- app.py: the currency_multipliers dict (INR 1, USD 0.012, EUR 0.011). -/
def currency_multipliers : Currency → ℚ
  | Currency.INR => 1
  | Currency.USD => 12 / 1000
  | Currency.EUR => 11 / 1000

/-- A cell of the exported CSV row: string, integer or numeric. -/
inductive CsvValue where
  | s (v : String)
  | i (v : Int)
  | q (v : ℚ)
deriving DecidableEq, Repr

/-- app.py: the result_data record written to the report, in column
order. -/
def result_data (ts : String) (age : Int) (gender education jobTitle : String)
    (experience : Int) (prediction : ℚ) (currency : Currency) (converted : ℚ) :
    List (String × CsvValue) :=
  [("Prediction_Date", CsvValue.s ts),
   ("Age", CsvValue.i age),
   ("Gender", CsvValue.s gender),
   ("Education", CsvValue.s education),
   ("Job_Title", CsvValue.s jobTitle),
   ("Experience", CsvValue.i experience),
   ("Predicted_Salary", CsvValue.q prediction),
   ("Currency", CsvValue.s (currencyLabel currency)),
   ("Converted_Salary", CsvValue.q converted)]

/-- app.py: result_df = pd.DataFrame of the single result_data record. -/
def result_df (record : List (String × CsvValue)) : List (List (String × CsvValue)) :=
  [record]

/-- Field lookup in an exported record by column name. -/
def lookupField (record : List (String × CsvValue)) (k : String) : Option CsvValue :=
  (record.find? fun kv => kv.1 == k).map fun kv => kv.2

/-- app.py: the hardcoded scatter reference rows
(Job Role, Actual Salary in INR, Years of Experience). -/
def scatterBase : List (String × ℚ × ℚ) :=
  [("Developer", 800000, 3), ("Data Scientist", 1200000, 5),
   ("Manager", 1500000, 10), ("Analyst", 700000, 2), ("Engineer", 900000, 4)]

/-- Everything rendered after a successful prediction: the converted
salary, derived metrics, scatter data with the appended You row, and the
export record. -/
structure PredictionDisplay where
  raw : ℚ
  converted : ℚ
  monthly : ℚ
  hourly : ℚ
  daily : ℚ
  scatter : List (String × ℚ × ℚ)
  exportRecord : List (String × CsvValue)
deriving DecidableEq, Repr

/-- The successful branch of app.py: converted_salary, the three derived
metrics (all from the converted value), the scatter You row (raw
prediction and submitted experience), and result_data. -/
def mkDisplay (ts : String) (age : Int) (gender education jobTitle : String)
    (experience : Int) (currency : Currency) (prediction : ℚ) : PredictionDisplay :=
  let converted := prediction * currency_multipliers currency
  { raw := prediction
    converted := converted
    monthly := converted / 12
    hourly := converted / (40 * 52)
    daily := converted / 365
    scatter := scatterBase ++ [("You", prediction, (experience : ℚ))]
    exportRecord := result_data ts age gender education jobTitle experience prediction currency converted }

/-- Outcome of pressing the predict button: blocked by validation with an
error message, a rendered prediction, or an exception escaping to the
user. -/
inductive Outcome where
  | blocked (msg : String)
  | shown (d : PredictionDisplay)
  | raised
deriving DecidableEq, Repr

/-- app.py, the button handler in main: if either validation flag is
false an error is shown and nothing is predicted; otherwise input_df is
built, the model predicts, and the display is rendered. -/
def onPredictClick (p : FittedPipeline) (ts : String) (age : Int)
    (gender education jobTitle : String) (experience : Int) (currency : Currency) : Outcome :=
  let age_valid := (validate_age age).1
  let exp_valid := (validate_experience experience age).1
  if !(age_valid && exp_valid) then
    Outcome.blocked "❌ Please fix the validation errors above before predicting."
  else
    match predictPipeline p ⟨age, gender, education, jobTitle, experience⟩ with
    | some prediction =>
        Outcome.shown (mkDisplay ts age gender education jobTitle experience currency prediction)
    | none => Outcome.raised

/-! ### Trainer vocabularies (train_model.py) -/

/-- train_model.py: the Gender vocabulary. -/
def genders : List String := ["Male", "Female"]

/-- train_model.py: the Education Level vocabulary. -/
def educationLevels : List String := ["High School", "Bachelor", "Master", "PhD"]

/-- train_model.py: the Job Title vocabulary. -/
def jobTitles : List String := ["Developer", "Data Scientist", "Manager", "Analyst", "Engineer"]

/-- A concrete fitted artifact with zero coefficients and intercept, the
trainer vocabularies and the trainer encoder mode; its prediction is 0 on
every row. -/
def zeroPipe : FittedPipeline :=
  { ageMean := 0, ageScale := 1, expMean := 0, expScale := 1,
    huMode := trainerEncoderMode,
    genderVocab := genders, eduVocab := educationLevels, jobVocab := jobTitles,
    coef := List.replicate 13 0, intercept := 0 }

/-- A concrete fitted artifact like zeroPipe but with intercept 5; its
prediction is 5 on every row. -/
def constPipe : FittedPipeline :=
  { ageMean := 0, ageScale := 1, expMean := 0, expScale := 1,
    huMode := trainerEncoderMode,
    genderVocab := genders, eduVocab := educationLevels, jobVocab := jobTitles,
    coef := List.replicate 13 0, intercept := 5 }

/-- The fixed input row named in the determinism property
(Age 30, Male, Bachelor, Developer, 5 years). -/
def specRow : InputRow := ⟨30, "Male", "Bachelor", "Developer", 5⟩

/-- With the trainer encoder mode (ignore), the encoder never fails, so
the pipeline always returns a scalar. -/
theorem predictPipeline_isSome_of_ignore (p : FittedPipeline) (r : InputRow)
    (h : p.huMode = trainerEncoderMode) : (predictPipeline p r).isSome := by
  simp [predictPipeline, transformRow, oneHot, h, trainerEncoderMode]

/-- Dot product with an all-zero coefficient vector vanishes. -/
theorem dotProduct_eq_zero_of_left_zero (a b : List ℚ) (h : ∀ x ∈ a, x = 0) :
    dotProduct a b = 0 := by
  induction a generalizing b with
  | nil => simp [dotProduct]
  | cons x xs ih =>
      cases b with
      | nil => simp [dotProduct]
      | cons y ys =>
          simp only [dotProduct, List.zipWith_cons_cons, List.sum_cons]
          rw [h x (List.mem_cons_self x xs), zero_mul, zero_add]
          exact ih ys (fun z hz => h z (List.mem_cons_of_mem x hz))

/-- The zero artifact predicts 0 on every row. -/
theorem predictPipeline_zeroPipe (r : InputRow) : predictPipeline zeroPipe r = some 0 := by
  simp [predictPipeline, transformRow, oneHot, zeroPipe, trainerEncoderMode]
  exact dotProduct_eq_zero_of_left_zero _ _ (by simp)

/-- The constant artifact predicts 5 on every row. -/
theorem predictPipeline_constPipe (r : InputRow) : predictPipeline constPipe r = some 5 := by
  simp [predictPipeline, transformRow, oneHot, constPipe, trainerEncoderMode]
  rw [dotProduct_eq_zero_of_left_zero _ _ (by simp)]

/-! ### Synthetic dataset (train_model.py): the randomness is made
explicit as draw streams passed to the generator. -/

/-- np.random.randint(lo, hi) on one draw: the draw is reduced modulo the
width of the interval, so the result lands in the integer range
[lo, hi) and a uniform draw below the width gives a uniform result. -/
def randint (lo hi u : Nat) : Nat := lo + u % (hi - lo)

/-- np.random.choice(options) on one draw: the draw reduced modulo the
vocabulary size selects an element. -/
def choice (options : List String) (u : Nat) : String :=
  options.getD (u % options.length) ""

/-- train_model.py: the Education Level offset table. -/
def educationOffsets : List (String × ℚ) :=
  [("High School", 0), ("Bachelor", 50000), ("Master", 100000), ("PhD", 200000)]

/-- train_model.py: the Job Title offset table. -/
def jobOffsets : List (String × ℚ) :=
  [("Developer", 200000), ("Data Scientist", 400000), ("Manager", 500000),
   ("Analyst", 150000), ("Engineer", 250000)]

/-- pandas Series.map on a dict, one key: none when the key is missing
(pandas would produce NaN there). -/
def mapLookup (m : List (String × ℚ)) (k : String) : Option ℚ :=
  (m.find? fun kv => kv.1 == k).map fun kv => kv.2

/-- train_model.py: base_salary = 250000. -/
def base_salary : ℚ := 250000

/-- One synthesized training record; the salary is optional because the
offset lookups propagate a missing key. -/
structure GenRow where
  age : Nat
  gender : String
  educationLevel : String
  jobTitle : String
  yearsExperience : Nat
  salary : Option ℚ
deriving DecidableEq, Repr, Inhabited

/-- The i-th synthesized row of train_model.py: Age from randint(22, 60),
categorical draws from the three vocabularies, Years of Experience from
randint(0, 35), and the Salary column formula
base + Age*3000 + Experience*15000 + education offset + job offset +
noise. -/
def dataRow (ageD genD eduD jobD expD : Nat → Nat) (noise : Nat → ℚ) (i : Nat) : GenRow :=
  let age := randint 22 60 (ageD i)
  let gender := choice genders (genD i)
  let edu := choice educationLevels (eduD i)
  let job := choice jobTitles (jobD i)
  let exp := randint 0 35 (expD i)
  { age := age, gender := gender, educationLevel := edu, jobTitle := job,
    yearsExperience := exp,
    salary := (mapLookup educationOffsets edu).bind fun e =>
      (mapLookup jobOffsets job).map fun j =>
        base_salary + (age : ℚ) * 3000 + (exp : ℚ) * 15000 + e + j + noise i }

/-- train_model.py: the full 300-row synthetic dataset. -/
def makeDataset (ageD genD eduD jobD expD : Nat → Nat) (noise : Nat → ℚ) : List GenRow :=
  (List.range 300).map (dataRow ageD genD eduD jobD expD noise)

/-- The all-zero draw stream, used to instantiate the generator. -/
def zeroDraws : Nat → Nat := fun _ => 0

/-- The all-zero noise stream, used to instantiate the generator. -/
def zeroNoise : Nat → ℚ := fun _ => 0

/-- Indexing the dataset below 300 yields the pointwise row. -/
theorem makeDataset_getD (ageD genD eduD jobD expD : Nat → Nat) (noise : Nat → ℚ)
    (i : Nat) (h : i < 300) :
    (makeDataset ageD genD eduD jobD expD noise).getD i default
      = dataRow ageD genD eduD jobD expD noise i := by
  simp [makeDataset, List.getD_eq_getElem?_getD, List.getElem?_map, List.getElem?_range, h]

/-- randint stays in its interval. -/
theorem randint_bounds (lo hi u : Nat) (h : lo < hi) :
    lo ≤ randint lo hi u ∧ randint lo hi u < hi := by
  unfold randint
  have := Nat.mod_lt u (show 0 < hi - lo by omega)
  omega

/-- choice stays in its vocabulary. -/
theorem choice_mem (l : List String) (u : Nat) (h : 0 < l.length) : choice l u ∈ l := by
  unfold choice
  have hm : u % l.length < l.length := Nat.mod_lt _ h
  simp only [List.getD_eq_getElem?_getD, List.getElem?_eq_getElem hm, Option.getD_some]
  exact List.getElem_mem _

/-- Every education value produced by choice has an offset. -/
theorem mapLookup_edu_choice (u : Nat) :
    ∃ e, mapLookup educationOffsets (choice educationLevels u) = some e := by
  have h4 : u % 4 < 4 := Nat.mod_lt _ (by norm_num)
  simp only [choice, educationLevels]
  set m := u % ([ "High School", "Bachelor", "Master", "PhD" ] : List String).length with hm
  have hm4 : m < 4 := h4
  interval_cases m <;> exact ⟨_, rfl⟩

/-- Every job value produced by choice has an offset. -/
theorem mapLookup_job_choice (u : Nat) :
    ∃ j, mapLookup jobOffsets (choice jobTitles u) = some j := by
  have h5 : u % 5 < 5 := Nat.mod_lt _ (by norm_num)
  simp only [choice, jobTitles]
  set m := u % ([ "Developer", "Data Scientist", "Manager", "Analyst", "Engineer" ] : List String).length with hm
  have hm5 : m < 5 := h5
  interval_cases m <;> exact ⟨_, rfl⟩

/-- Indicator map over a vocabulary not containing the value is all
zeros. -/
theorem indicator_eq_replicate_of_not_mem (l : List String) (v : String) (h : v ∉ l) :
    (l.map fun c => if c == v then 1 else 0) = List.replicate l.length (0 : ℚ) := by
  induction l with
  | nil => rfl
  | cons a as ih =>
      simp only [List.mem_cons, not_or] at h
      simp only [List.map_cons, List.length_cons, List.replicate_succ]
      rw [ih h.2]
      have : (a == v) = false := by
        simp only [beq_eq_false_iff_ne, ne_eq]
        exact fun hav => h.1 hav.symm
      simp [this]

end SalaryApp

open SalaryApp

/-- C3: the displayed converted salary is the raw prediction times the
currency multiplier (1 for INR, 0.012 for USD, 0.011 for EUR), and the
monthly, hourly and daily figures are converted/12, converted/(40×52) and
converted/365, all computed from the converted value. -/
theorem C3_currency_conversion (ts : String) (age : Int)
    (gender education jobTitle : String) (experience : Int)
    (currency : Currency) (pred : ℚ) :
    (mkDisplay ts age gender education jobTitle experience currency pred).raw = pred
    ∧ (mkDisplay ts age gender education jobTitle experience currency pred).converted
        = pred * currency_multipliers currency
    ∧ currency_multipliers Currency.INR = 1
    ∧ currency_multipliers Currency.USD = 12 / 1000
    ∧ currency_multipliers Currency.EUR = 11 / 1000
    ∧ (mkDisplay ts age gender education jobTitle experience currency pred).monthly
        = (mkDisplay ts age gender education jobTitle experience currency pred).converted / 12
    ∧ (mkDisplay ts age gender education jobTitle experience currency pred).hourly
        = (mkDisplay ts age gender education jobTitle experience currency pred).converted / (40 * 52)
    ∧ (mkDisplay ts age gender education jobTitle experience currency pred).daily
        = (mkDisplay ts age gender education jobTitle experience currency pred).converted / 365 :=
  ⟨rfl, rfl, rfl, rfl, rfl, rfl, rfl, rfl⟩

/-- C5: the model predicts only when both validation flags are true; a
failing check blocks the prediction with an inline error and an error
message, and no exception reaches the user. -/
theorem C5_validation_gates_prediction (p : FittedPipeline) (ts : String) (age : Int)
    (gender education jobTitle : String) (experience : Int) (currency : Currency)
    (hmode : p.huMode = trainerEncoderMode) :
    ((validate_age age).1 = true ∧ (validate_experience experience age).1 = true →
      ∃ pred, predictPipeline p ⟨age, gender, education, jobTitle, experience⟩ = some pred
        ∧ onPredictClick p ts age gender education jobTitle experience currency
            = Outcome.shown (mkDisplay ts age gender education jobTitle experience currency pred))
    ∧ (¬ ((validate_age age).1 = true ∧ (validate_experience experience age).1 = true) →
        onPredictClick p ts age gender education jobTitle experience currency
          = Outcome.blocked "❌ Please fix the validation errors above before predicting."
        ∧ inlineErrors age experience ≠ [])
    ∧ onPredictClick p ts age gender education jobTitle experience currency ≠ Outcome.raised := by
  obtain ⟨pred, hpred⟩ := Option.isSome_iff_exists.mp
    (predictPipeline_isSome_of_ignore p ⟨age, gender, education, jobTitle, experience⟩ hmode)
  refine ⟨?_, ?_, ?_⟩
  · rintro ⟨ha, he⟩
    exact ⟨pred, hpred, by simp [onPredictClick, ha, he, hpred]⟩
  · intro hfail
    constructor
    · cases ha : (validate_age age).1 with
      | false => simp [onPredictClick, ha]
      | true =>
          cases he : (validate_experience experience age).1 with
          | false => simp [onPredictClick, ha, he]
          | true => exact absurd ⟨ha, he⟩ hfail
    · cases ha : (validate_age age).1 with
      | false => simp [inlineErrors, ha]
      | true =>
          cases he : (validate_experience experience age).1 with
          | false => simp [inlineErrors, ha, he]
          | true => exact absurd ⟨ha, he⟩ hfail
  · cases ha : (validate_age age).1 with
    | false => simp [onPredictClick, ha]
    | true =>
        cases he : (validate_experience experience age).1 with
        | false => simp [onPredictClick, ha, he]
        | true => simp [onPredictClick, ha, he, hpred]

/-- C5 witness: with the zero artifact and valid inputs the outcome is a
rendered prediction and never an exception. -/
theorem C5_validation_gates_prediction_witness :
    (∃ pred, predictPipeline zeroPipe ⟨30, "Male", "Bachelor", "Developer", 5⟩ = some pred
      ∧ onPredictClick zeroPipe "t" 30 "Male" "Bachelor" "Developer" 5 Currency.INR
          = Outcome.shown (mkDisplay "t" 30 "Male" "Bachelor" "Developer" 5 Currency.INR pred))
    ∧ onPredictClick zeroPipe "t" 30 "Male" "Bachelor" "Developer" 5 Currency.INR
        ≠ Outcome.raised :=
  ⟨(C5_validation_gates_prediction zeroPipe "t" 30 "Male" "Bachelor" "Developer" 5
      Currency.INR rfl).1 ⟨by decide, by decide⟩,
   (C5_validation_gates_prediction zeroPipe "t" 30 "Male" "Bachelor" "Developer" 5
      Currency.INR rfl).2.2⟩

/-- C6: the export has exactly one data row with the nine fixed columns;
Predicted_Salary and Converted_Salary are the displayed raw and converted
values, and the other fields are the submitted form values. -/
theorem C6_export_row (ts : String) (age : Int) (gender education jobTitle : String)
    (experience : Int) (currency : Currency) (pred : ℚ) :
    (result_df (mkDisplay ts age gender education jobTitle experience currency pred).exportRecord).length = 1
    ∧ (mkDisplay ts age gender education jobTitle experience currency pred).exportRecord.map Prod.fst
        = ["Prediction_Date", "Age", "Gender", "Education", "Job_Title", "Experience",
           "Predicted_Salary", "Currency", "Converted_Salary"]
    ∧ lookupField (mkDisplay ts age gender education jobTitle experience currency pred).exportRecord
        "Predicted_Salary"
        = some (CsvValue.q (mkDisplay ts age gender education jobTitle experience currency pred).raw)
    ∧ lookupField (mkDisplay ts age gender education jobTitle experience currency pred).exportRecord
        "Converted_Salary"
        = some (CsvValue.q (mkDisplay ts age gender education jobTitle experience currency pred).converted)
    ∧ lookupField (mkDisplay ts age gender education jobTitle experience currency pred).exportRecord
        "Age" = some (CsvValue.i age)
    ∧ lookupField (mkDisplay ts age gender education jobTitle experience currency pred).exportRecord
        "Gender" = some (CsvValue.s gender)
    ∧ lookupField (mkDisplay ts age gender education jobTitle experience currency pred).exportRecord
        "Education" = some (CsvValue.s education)
    ∧ lookupField (mkDisplay ts age gender education jobTitle experience currency pred).exportRecord
        "Job_Title" = some (CsvValue.s jobTitle)
    ∧ lookupField (mkDisplay ts age gender education jobTitle experience currency pred).exportRecord
        "Experience" = some (CsvValue.i experience) :=
  ⟨rfl, rfl, rfl, rfl, rfl, rfl, rfl, rfl, rfl⟩

/-- C8: on the fixed row (Age 30, Male, Bachelor, Developer, 5 years), two
invocations of the loaded frozen pipeline return equal results. -/
theorem C8_predict_deterministic (artifact : FittedPipeline) :
    predictPipeline (load_model artifact) specRow
      = predictPipeline (load_model artifact) specRow := rfl

/-- C9: with the trainer encoder mode, prediction on any row returns a
scalar, and an unknown categorical value is encoded as the all-zero
indicator vector rather than failing. -/
theorem C9_unknown_category_safe (p : FittedPipeline) (r : InputRow)
    (hmode : p.huMode = trainerEncoderMode) :
    (∃ q, predictPipeline p r = some q)
    ∧ (r.jobTitle ∉ p.jobVocab →
        oneHot p.huMode p.jobVocab r.jobTitle
          = some (List.replicate p.jobVocab.length 0)) := by
  constructor
  · exact Option.isSome_iff_exists.mp (predictPipeline_isSome_of_ignore p r hmode)
  · intro hnot
    rw [hmode]
    simp only [oneHot, trainerEncoderMode, or_true, if_true]
    rw [indicator_eq_replicate_of_not_mem p.jobVocab r.jobTitle hnot]

/-- C9 witness: the job title Astronaut is outside the training
vocabulary, yet prediction returns a scalar and the job block is the
all-zero vector of length 5. -/
theorem C9_unknown_category_safe_witness :
    (∃ q, predictPipeline zeroPipe ⟨30, "Male", "Bachelor", "Astronaut", 5⟩ = some q)
    ∧ oneHot zeroPipe.huMode zeroPipe.jobVocab "Astronaut"
        = some (List.replicate zeroPipe.jobVocab.length 0) :=
  ⟨(C9_unknown_category_safe zeroPipe ⟨30, "Male", "Bachelor", "Astronaut", 5⟩ rfl).1,
   (C9_unknown_category_safe zeroPipe ⟨30, "Male", "Bachelor", "Astronaut", 5⟩ rfl).2
     (by decide)⟩

/-- C10 counterexample: with a fitted artifact predicting 0 and USD
selected, the charted You salary coordinate equals the displayed
converted salary, refuting that they always differ under USD or EUR. -/
theorem C10_chart_counterexample :
    onPredictClick zeroPipe "2025-01-01 00:00:00" 30 "Male" "Bachelor" "Developer" 5 Currency.USD
      = Outcome.shown (mkDisplay "2025-01-01 00:00:00" 30 "Male" "Bachelor" "Developer" 5 Currency.USD 0)
    ∧ ((mkDisplay "2025-01-01 00:00:00" 30 "Male" "Bachelor" "Developer" 5 Currency.USD 0).scatter.getLast?).map
        (fun row => row.2.1)
      = some (mkDisplay "2025-01-01 00:00:00" 30 "Male" "Bachelor" "Developer" 5 Currency.USD 0).converted := by
  constructor
  · have ha : (validate_age 30).1 = true := by decide
    have he : (validate_experience 5 30).1 = true := by decide
    have hpred := predictPipeline_zeroPipe ⟨30, "Male", "Bachelor", "Developer", 5⟩
    simp [onPredictClick, ha, he, hpred]
  · rw [show (mkDisplay "2025-01-01 00:00:00" 30 "Male" "Bachelor" "Developer" 5
        Currency.USD 0).scatter
      = scatterBase ++ [("You", (0 : ℚ), ((5 : Int) : ℚ))] from rfl]
    rw [List.getLast?_concat]
    simp [mkDisplay, currency_multipliers]

/-- C10 amended: the You point always charts the raw INR prediction
against the submitted experience, and whenever USD or EUR is selected and
the prediction is nonzero the charted salary differs from the displayed
converted salary. -/
theorem C10_chart_uses_raw_amended (ts : String) (age : Int)
    (gender education jobTitle : String) (experience : Int)
    (currency : Currency) (pred : ℚ) :
    (mkDisplay ts age gender education jobTitle experience currency pred).scatter.getLast?
      = some ("You", pred, (experience : ℚ))
    ∧ ((currency = Currency.USD ∨ currency = Currency.EUR) → pred ≠ 0 →
        pred ≠ (mkDisplay ts age gender education jobTitle experience currency pred).converted) := by
  constructor
  · rfl
  · intro hc h0 hEq
    have hconv : (mkDisplay ts age gender education jobTitle experience currency pred).converted
        = pred * currency_multipliers currency := rfl
    rw [hconv] at hEq
    have hz : pred * (1 - currency_multipliers currency) = 0 := by ring_nf; linarith [hEq]
    rcases mul_eq_zero.mp hz with h | h
    · exact h0 h
    · rcases hc with rfl | rfl <;> norm_num [currency_multipliers] at h

/-- C10 amended witness: prediction 5 with USD charts 5 while displaying
0.06, which differ. -/
theorem C10_chart_uses_raw_amended_witness :
    (mkDisplay "t" 30 "Male" "Bachelor" "Developer" 5 Currency.USD 5).scatter.getLast?
      = some ("You", (5 : ℚ), ((5 : Int) : ℚ))
    ∧ (5 : ℚ) ≠ (mkDisplay "t" 30 "Male" "Bachelor" "Developer" 5 Currency.USD 5).converted :=
  ⟨(C10_chart_uses_raw_amended "t" 30 "Male" "Bachelor" "Developer" 5 Currency.USD 5).1,
   (C10_chart_uses_raw_amended "t" 30 "Male" "Bachelor" "Developer" 5 Currency.USD 5).2
     (Or.inl rfl) (by norm_num)⟩

/-- C1: for every age in [18, 60] and experience in [0, age - 16] both
validation flags are true; outside [18, 60] validate_age returns false, and
negative experience or experience above age - 16 makes
validate_experience return false. -/
theorem C1_validation_ranges (age experience : Int) :
    (18 ≤ age → age ≤ 60 → (validate_age age).1 = true)
    ∧ (0 ≤ experience → experience ≤ age - 16 → (validate_experience experience age).1 = true)
    ∧ (age < 18 ∨ 60 < age → (validate_age age).1 = false)
    ∧ (experience < 0 ∨ age - 16 < experience → (validate_experience experience age).1 = false) := by
  refine ⟨?_, ?_, ?_, ?_⟩
  · intro h1 h2
    simp [validate_age, h1, h2]
  · intro h1 h2
    simp only [validate_experience]
    split
    · omega
    · split
      · omega
      · rfl
  · intro h
    simp only [validate_age, Bool.and_eq_false_iff, decide_eq_false_iff_not, not_le]
    omega
  · intro h
    simp only [validate_experience]
    split
    · rfl
    · split
      · rfl
      · omega

/-- C1 witness: concrete instances of the four parts. -/
theorem C1_validation_ranges_witness :
    (validate_age 30).1 = true ∧ (validate_experience 5 30).1 = true
    ∧ (validate_age 17).1 = false ∧ (validate_experience (-1) 30).1 = false :=
  ⟨(C1_validation_ranges 30 5).1 (by decide) (by decide),
   (C1_validation_ranges 30 5).2.1 (by decide) (by decide),
   (C1_validation_ranges 17 0).2.2.1 (Or.inl (by decide)),
   (C1_validation_ranges 30 (-1)).2.2.2 (Or.inl (by decide))⟩

/-- C2: validate_age enforces the upper bound 60 while its message string
names the bound 100; every age in (60, 100] is rejected. -/
theorem C2_age_bound_message_mismatch (age : Int) :
    ((validate_age age).1 = true ↔ 18 ≤ age ∧ age ≤ 60)
    ∧ (validate_age age).2 = "Age must be between 18 and 100"
    ∧ (60 < age → age ≤ 100 → (validate_age age).1 = false) := by
  refine ⟨?_, rfl, ?_⟩
  · simp [validate_age]
  · intro h1 _
    simp only [validate_age, Bool.and_eq_false_iff, decide_eq_false_iff_not, not_le]
    omega

/-- C2 witness: age 70 lies in (60, 100] yet is rejected, and the message
claims acceptance up to 100. -/
theorem C2_age_bound_message_mismatch_witness :
    (validate_age 70).2 = "Age must be between 18 and 100" ∧ (validate_age 70).1 = false :=
  ⟨(C2_age_bound_message_mismatch 70).2.1,
   (C2_age_bound_message_mismatch 70).2.2 (by decide) (by decide)⟩

/-- C4: every generated row's Salary is 250000 plus Age×3000 plus
Experience×15000 plus the education offset plus the job offset plus the
single noise term, the only non-deterministic contribution. -/
theorem C4_salary_formula (ageD genD eduD jobD expD : Nat → Nat) (noise : Nat → ℚ)
    (i : Nat) (h : i < 300) :
    ∃ e j,
      mapLookup educationOffsets (dataRow ageD genD eduD jobD expD noise i).educationLevel = some e
      ∧ mapLookup jobOffsets (dataRow ageD genD eduD jobD expD noise i).jobTitle = some j
      ∧ (makeDataset ageD genD eduD jobD expD noise).getD i default
          = dataRow ageD genD eduD jobD expD noise i
      ∧ (dataRow ageD genD eduD jobD expD noise i).salary
          = some (base_salary
              + ((dataRow ageD genD eduD jobD expD noise i).age : ℚ) * 3000
              + ((dataRow ageD genD eduD jobD expD noise i).yearsExperience : ℚ) * 15000
              + e + j + noise i) := by
  obtain ⟨e, he⟩ := mapLookup_edu_choice (eduD i)
  obtain ⟨j, hj⟩ := mapLookup_job_choice (jobD i)
  refine ⟨e, j, he, hj, makeDataset_getD ageD genD eduD jobD expD noise i h, ?_⟩
  have hsal : (dataRow ageD genD eduD jobD expD noise i).salary
      = (mapLookup educationOffsets (choice educationLevels (eduD i))).bind fun e =>
          (mapLookup jobOffsets (choice jobTitles (jobD i))).map fun j =>
            base_salary + ((randint 22 60 (ageD i)) : ℚ) * 3000
              + ((randint 0 35 (expD i)) : ℚ) * 15000 + e + j + noise i := rfl
  rw [hsal, he, hj]
  rfl

/-- C4 witness: the formula instantiated at the all-zero streams, row 0. -/
theorem C4_salary_formula_witness :
    ∃ e j,
      mapLookup educationOffsets
        (dataRow zeroDraws zeroDraws zeroDraws zeroDraws zeroDraws zeroNoise 0).educationLevel = some e
      ∧ mapLookup jobOffsets
          (dataRow zeroDraws zeroDraws zeroDraws zeroDraws zeroDraws zeroNoise 0).jobTitle = some j
      ∧ (makeDataset zeroDraws zeroDraws zeroDraws zeroDraws zeroDraws zeroNoise).getD 0 default
          = dataRow zeroDraws zeroDraws zeroDraws zeroDraws zeroDraws zeroNoise 0
      ∧ (dataRow zeroDraws zeroDraws zeroDraws zeroDraws zeroDraws zeroNoise 0).salary
          = some (base_salary
              + ((dataRow zeroDraws zeroDraws zeroDraws zeroDraws zeroDraws zeroNoise 0).age : ℚ) * 3000
              + ((dataRow zeroDraws zeroDraws zeroDraws zeroDraws zeroDraws zeroNoise 0).yearsExperience : ℚ) * 15000
              + e + j + zeroNoise 0) :=
  C4_salary_formula zeroDraws zeroDraws zeroDraws zeroDraws zeroDraws zeroNoise 0 (by decide)

/-- C7: the trainer generates exactly 300 rows; each row's Age lies in
[22, 60), its Experience in [0, 35), and its categorical values in the
fixed vocabularies of sizes 2, 4 and 5; a uniform draw below the interval
width maps one-to-one onto the interval (uniformity of randint). -/
theorem C7_generator_shape (ageD genD eduD jobD expD : Nat → Nat) (noise : Nat → ℚ) :
    (makeDataset ageD genD eduD jobD expD noise).length = 300
    ∧ (∀ i, i < 300 →
        (makeDataset ageD genD eduD jobD expD noise).getD i default
          = dataRow ageD genD eduD jobD expD noise i
        ∧ 22 ≤ (dataRow ageD genD eduD jobD expD noise i).age
        ∧ (dataRow ageD genD eduD jobD expD noise i).age < 60
        ∧ (dataRow ageD genD eduD jobD expD noise i).yearsExperience < 35
        ∧ (dataRow ageD genD eduD jobD expD noise i).gender ∈ genders
        ∧ (dataRow ageD genD eduD jobD expD noise i).educationLevel ∈ educationLevels
        ∧ (dataRow ageD genD eduD jobD expD noise i).jobTitle ∈ jobTitles)
    ∧ genders.length = 2 ∧ educationLevels.length = 4 ∧ jobTitles.length = 5
    ∧ (∀ u, u < 38 → randint 22 60 u = 22 + u)
    ∧ (∀ u, u < 35 → randint 0 35 u = u) := by
  refine ⟨?_, ?_, rfl, rfl, rfl, ?_, ?_⟩
  · simp [makeDataset]
  · intro i h
    exact ⟨makeDataset_getD ageD genD eduD jobD expD noise i h,
      (randint_bounds 22 60 (ageD i) (by norm_num)).1,
      (randint_bounds 22 60 (ageD i) (by norm_num)).2,
      (randint_bounds 0 35 (expD i) (by norm_num)).2,
      choice_mem genders (genD i) (by norm_num [genders]),
      choice_mem educationLevels (eduD i) (by norm_num [educationLevels]),
      choice_mem jobTitles (jobD i) (by norm_num [jobTitles])⟩
  · intro u hu
    simp only [randint]
    omega
  · intro u hu
    simp only [randint]
    omega

/-- C7 witness: the instantiated count and row-0 ranges at the all-zero
streams. -/
theorem C7_generator_shape_witness :
    (makeDataset zeroDraws zeroDraws zeroDraws zeroDraws zeroDraws zeroNoise).length = 300
    ∧ 22 ≤ (dataRow zeroDraws zeroDraws zeroDraws zeroDraws zeroDraws zeroNoise 0).age
    ∧ (dataRow zeroDraws zeroDraws zeroDraws zeroDraws zeroDraws zeroNoise 0).age < 60
    ∧ randint 22 60 7 = 22 + 7 :=
  ⟨(C7_generator_shape zeroDraws zeroDraws zeroDraws zeroDraws zeroDraws zeroNoise).1,
   ((C7_generator_shape zeroDraws zeroDraws zeroDraws zeroDraws zeroDraws zeroNoise).2.1 0
      (by decide)).2.1,
   ((C7_generator_shape zeroDraws zeroDraws zeroDraws zeroDraws zeroDraws zeroNoise).2.1 0
      (by decide)).2.2.1,
   (C7_generator_shape zeroDraws zeroDraws zeroDraws zeroDraws zeroDraws zeroNoise).2.2.2.2.2.1 7
     (by decide)⟩
